import Mathlib

/-!
Shallow embedding of `sample_flow.py` (Prefect ECS worker validation flow).

Modelling conventions:
* The process environment is a partial map `Env := String → Option String`;
  `os.environ.get k` is `env k`, `os.environ.get k d` is `(env k).getD d`.
* Each outbound HTTP call (`urllib.request.urlopen` followed by
  `.read().decode()` and `json.loads`) is modelled by an oracle value of type
  `Except String Json`: `Except.error e` means the composite call raised a
  Python exception whose `str(...)` is `e` (timeout, DNS failure, non-2xx,
  malformed body, ...), `Except.ok j` means it produced the JSON value `j`.
* Python exceptions are the `Except String` monad; `try/except Exception as e`
  is `tryCatch`.
* `psutil` samples are oracle records of raw counters; each of the three
  sampling calls (`cpu_percent`, `virtual_memory`, `disk_usage`) can raise.
* Python float arithmetic is idealised over `ℚ`; `round(x, 2)` is
  round-half-to-even at two decimal places (Python 3 banker's rounding);
  `int / int` raises `ZeroDivisionError` on a zero denominator.
-/

/-- JSON values, as produced by `json.loads`. Objects keep the key order of the
source text; the model assumes keys are not duplicated. -/
inductive Json where
  | null : Json
  | bool (b : Bool) : Json
  | str (s : String) : Json
  | num (q : ℚ) : Json
  | arr (elems : List Json) : Json
  | obj (fields : List (String × Json)) : Json

/-- Python truthiness of `Optional[str]`: `None` and `""` are falsy
(`if metadata_uri:` at line 60 of `sample_flow.py`). -/
def truthy : Option String → Bool
  | none => false
  | some s => !s.isEmpty

/-- The process environment. -/
def Env := String → Option String

/-- Python `d.get(key)` on a parsed JSON value: returns the value (or `null`
for a missing key) when the value is a dict, raises `AttributeError` when it
is any other JSON value (a list, string, number, ...). -/
def dictGet (j : Json) (key : String) : Except String Json :=
  match j with
  | Json.obj fields => Except.ok ((fields.lookup key).getD Json.null)
  | _ => Except.error ("AttributeError: object has no attribute " ++ "get" ++ " (" ++ key ++ ")")

/-- Raw counters from `psutil.virtual_memory()`: byte totals plus the
`percent` field that psutil computes itself (the flow copies it verbatim). -/
structure MemSample where
  total : ℕ
  used : ℕ
  percent : ℚ

/-- Raw counters from `psutil.disk_usage('/')`. -/
structure DiskSample where
  total : ℕ
  used : ℕ

/-- Outcomes of the three OS-level sampling calls in `check_resources`;
each can raise (`Except.error`), and nothing in the flow catches that. -/
structure ResourceSample where
  cpu_percent : Except String ℚ
  memory : Except String MemSample
  disk : Except String DiskSample

/-- One run's worth of external nondeterminism: wall-clock reads, platform
introspection, the two HTTP call outcomes, and the OS resource counters. -/
structure World where
  now1 : String
  now2 : String
  platformDesc : String
  pythonVersion : String
  internet : Except String Json
  metadata : Except String Json
  res : ResourceSample

/-- The `SystemInfo` record built by `get_system_info` (lines 13-30). -/
structure SystemInfo where
  timestamp : String
  platform : String
  python_version : String
  container_hostname : String
  aws_region : String
  prefect_api_url : String
  task_family : String
  cluster_name : String

/-- One `ConnectivityResult` dict: `result` is present exactly on success,
`error` exactly on failure (lines 44-54 and 63-77). -/
structure ConnectivityResult where
  test : String
  status : String
  result : Option Json
  error : Option String

/-- The `ResourceUsage` record built by `check_resources` (lines 98-106). -/
structure ResourceUsage where
  cpu_percent : ℚ
  memory_total_gb : ℚ
  memory_used_gb : ℚ
  memory_percent : ℚ
  disk_total_gb : ℚ
  disk_used_gb : ℚ
  disk_percent : ℚ

/-- The `ValidationSummary` dict built by `validation_flow` (lines 131-140). -/
structure ValidationSummary where
  flow_status : String
  timestamp : String
  system_info : SystemInfo
  connectivity_tests : List ConnectivityResult
  resource_usage : ResourceUsage
  validation_success : Bool

/-- `get_system_info` (lines 13-30): total over the environment, every
environment read independently defaulted. -/
def get_system_info (env : Env) (w : World) : SystemInfo where
  timestamp := w.now1
  platform := w.platformDesc
  python_version := w.pythonVersion
  container_hostname := (env "HOSTNAME").getD "unknown"
  aws_region := (env "AWS_DEFAULT_REGION").getD "unknown"
  prefect_api_url := (env "PREFECT_API_URL").getD "not_set"
  task_family := (env "ECS_TASK_FAMILY").getD "unknown"
  cluster_name := (env "ECS_CLUSTER").getD "unknown"

/-- `test_connectivity` (lines 33-86): two probes, each wrapped in its own
`try/except` that appends a "failed" entry carrying `str(e)`; the metadata
probe body is guarded by the truthiness of `ECS_CONTAINER_METADATA_URI_V4`. -/
def test_connectivity (env : Env) (w : World) :
    Except String (List ConnectivityResult) := do
  let mut tests : List ConnectivityResult := []
  try
    let ip_info ← w.internet
    tests := tests ++ [⟨"internet_connectivity", "success", some ip_info, none⟩]
  catch e =>
    tests := tests ++ [⟨"internet_connectivity", "failed", none, some e⟩]
  try
    let metadata_uri := env "ECS_CONTAINER_METADATA_URI_V4"
    if truthy metadata_uri then
      let task_metadata ← w.metadata
      let task_arn ← dictGet task_metadata "TaskARN"
      let cluster ← dictGet task_metadata "Cluster"
      let family ← dictGet task_metadata "Family"
      tests := tests ++ [⟨"ecs_metadata", "success",
        some (Json.obj [("task_arn", task_arn), ("cluster", cluster), ("family", family)]),
        none⟩]
  catch e =>
    tests := tests ++ [⟨"ecs_metadata", "failed", none, some e⟩]
  return tests

/-- Nearest integer with ties to even (Python 3 `round` on an exact value). -/
def roundHalfEven (q : ℚ) : ℤ :=
  if q - ⌊q⌋ < 1 / 2 then ⌊q⌋
  else if 1 / 2 < q - ⌊q⌋ then ⌊q⌋ + 1
  else if ⌊q⌋ % 2 = 0 then ⌊q⌋ else ⌊q⌋ + 1

/-- Python `round(x, 2)`: round to 2 decimal places, ties to even. -/
def round2 (q : ℚ) : ℚ := (roundHalfEven (q * 100) : ℚ) / 100

/-- Python's `/` on numbers: raises `ZeroDivisionError` on a 0 denominator. -/
def pyDiv (a b : ℚ) : Except String ℚ :=
  if b = 0 then Except.error "ZeroDivisionError: division by zero"
  else Except.ok (a / b)

/-- `check_resources` (lines 89-113): reads the three samples with no
exception handling, converts bytes to GB with `round(-, 2)`, copies
`memory.percent` verbatim, and computes `disk_percent` itself. -/
def check_resources (s : ResourceSample) : Except String ResourceUsage := do
  let cpu_percent ← s.cpu_percent
  let memory ← s.memory
  let disk ← s.disk
  let diskRatio ← pyDiv (disk.used : ℚ) (disk.total : ℚ)
  return { cpu_percent := cpu_percent
           memory_total_gb := round2 ((memory.total : ℚ) / 1024 ^ 3)
           memory_used_gb := round2 ((memory.used : ℚ) / 1024 ^ 3)
           memory_percent := memory.percent
           disk_total_gb := round2 ((disk.total : ℚ) / 1024 ^ 3)
           disk_used_gb := round2 ((disk.used : ℚ) / 1024 ^ 3)
           disk_percent := round2 (diskRatio * 100) }

/-- `validation_flow` (lines 117-149): the three collectors in order, then the
summary with `validation_success = all(test["status"] == "success" ...)`. -/
def validation_flow (env : Env) (w : World) : Except String ValidationSummary := do
  let system_info := get_system_info env w
  let connectivity_results ← test_connectivity env w
  let resource_info ← check_resources w.res
  return { flow_status := "completed"
           timestamp := w.now2
           system_info := system_info
           connectivity_tests := connectivity_results
           resource_usage := resource_info
           validation_success :=
             connectivity_results.all (fun t => t.status == "success") }

/-! ### Normal forms of the probe results -/

/-- The entry the internet probe appends: success with the parsed body, or
failed with the exception string. -/
def internetEntry (w : World) : ConnectivityResult :=
  match w.internet with
  | Except.ok j => ⟨"internet_connectivity", "success", some j, none⟩
  | Except.error e => ⟨"internet_connectivity", "failed", none, some e⟩

/-- The success payload the metadata probe extracts from the parsed body. -/
def metaPayload (j : Json) : Except String Json := do
  let task_arn ← dictGet j "TaskARN"
  let cluster ← dictGet j "Cluster"
  let family ← dictGet j "Family"
  return Json.obj [("task_arn", task_arn), ("cluster", cluster), ("family", family)]

/-- The entry the metadata probe appends when its guard is taken. -/
def metaEntry (w : World) : ConnectivityResult :=
  match w.metadata >>= metaPayload with
  | Except.ok p => ⟨"ecs_metadata", "success", some p, none⟩
  | Except.error e => ⟨"ecs_metadata", "failed", none, some e⟩

/-- The entries contributed by the metadata probe: none when the environment
variable is not truthy, exactly one otherwise. -/
def metaEntries (env : Env) (w : World) : List ConnectivityResult :=
  if truthy (env "ECS_CONTAINER_METADATA_URI_V4") then [metaEntry w] else []

theorem exceptTryCatch_ok {α : Type} (x : α) (h : String → Except String α) :
    tryCatch (Except.ok x) h = Except.ok x := rfl

theorem exceptTryCatch_err {α : Type} (e : String) (h : String → Except String α) :
    tryCatch (Except.error e) h = h e := rfl

theorem dictGet_obj (fields : List (String × Json)) (key : String) :
    dictGet (Json.obj fields) key = Except.ok ((fields.lookup key).getD Json.null) := rfl

theorem exceptPure_eq_ok {α : Type} (x : α) :
    (pure x : Except String α) = Except.ok x := rfl

theorem test_connectivity_eq (env : Env) (w : World) :
    test_connectivity env w = Except.ok (internetEntry w :: metaEntries env w) := by
  unfold test_connectivity internetEntry metaEntries metaEntry metaPayload
  cases hi : w.internet <;> cases hg : truthy (env "ECS_CONTAINER_METADATA_URI_V4") <;>
    cases hm : w.metadata <;> simp only [hg, hi, hm] <;>
    first
      | rfl
      | (rename_i j; cases j <;> rfl)

/-- A concrete world used by the closed witness theorems: the internet probe
succeeds with `{"origin": "1.2.3.4"}`, the metadata GET raises, and all
resource samples succeed. -/
def w0 : World where
  now1 := "2025-01-01T00:00:00"
  now2 := "2025-01-01T00:00:05"
  platformDesc := "Linux-x86_64"
  pythonVersion := "3.11.0"
  internet := Except.ok (Json.obj [("origin", Json.str "1.2.3.4")])
  metadata := Except.error "urlopen error timed out"
  res := { cpu_percent := Except.ok 5
           memory := Except.ok ⟨2 ^ 31, 2 ^ 30, 50⟩
           disk := Except.ok ⟨2 ^ 33, 2 ^ 32⟩ }

/-- A concrete environment: only `HOSTNAME` is set. -/
def env0 : Env := fun k => if k = "HOSTNAME" then some "host-1" else none

/-- C5: `get_system_info` is total over the environment (it is a plain
function, with no exceptional result type), and each environment-derived
field is the environment value when the variable is set and otherwise the
documented default: "unknown" for container hostname, cloud region, task
family and cluster name, "not_set" for the API URL. -/
theorem get_system_info_env_defaults (env : Env) (w : World) :
    ((∀ v, env "HOSTNAME" = some v → (get_system_info env w).container_hostname = v)
      ∧ (env "HOSTNAME" = none → (get_system_info env w).container_hostname = "unknown"))
    ∧ ((∀ v, env "AWS_DEFAULT_REGION" = some v → (get_system_info env w).aws_region = v)
      ∧ (env "AWS_DEFAULT_REGION" = none → (get_system_info env w).aws_region = "unknown"))
    ∧ ((∀ v, env "PREFECT_API_URL" = some v → (get_system_info env w).prefect_api_url = v)
      ∧ (env "PREFECT_API_URL" = none → (get_system_info env w).prefect_api_url = "not_set"))
    ∧ ((∀ v, env "ECS_TASK_FAMILY" = some v → (get_system_info env w).task_family = v)
      ∧ (env "ECS_TASK_FAMILY" = none → (get_system_info env w).task_family = "unknown"))
    ∧ ((∀ v, env "ECS_CLUSTER" = some v → (get_system_info env w).cluster_name = v)
      ∧ (env "ECS_CLUSTER" = none → (get_system_info env w).cluster_name = "unknown")) := by
  refine ⟨⟨fun v h => ?_, fun h => ?_⟩, ⟨fun v h => ?_, fun h => ?_⟩,
    ⟨fun v h => ?_, fun h => ?_⟩, ⟨fun v h => ?_, fun h => ?_⟩,
    ⟨fun v h => ?_, fun h => ?_⟩⟩ <;> simp [get_system_info, h]

/-- Witness for C5 at the concrete environment `env0`: the set variable is
echoed, the unset ones get their documented defaults. -/
theorem get_system_info_env_defaults_witness :
    (get_system_info env0 w0).container_hostname = "host-1"
    ∧ (get_system_info env0 w0).aws_region = "unknown"
    ∧ (get_system_info env0 w0).prefect_api_url = "not_set"
    ∧ (get_system_info env0 w0).task_family = "unknown"
    ∧ (get_system_info env0 w0).cluster_name = "unknown" :=
  ⟨(get_system_info_env_defaults env0 w0).1.1 "host-1" rfl,
   (get_system_info_env_defaults env0 w0).2.1.2 rfl,
   (get_system_info_env_defaults env0 w0).2.2.1.2 rfl,
   (get_system_info_env_defaults env0 w0).2.2.2.1.2 rfl,
   (get_system_info_env_defaults env0 w0).2.2.2.2.2 rfl⟩

/-- C1: whenever `validation_flow` returns a summary, its
`validation_success` field is true exactly when every entry of the
connectivity-result sequence has status "success"; in particular it is
true when that sequence is empty (the aggregation is `List.all`, which is
vacuously true on `[]`). -/
theorem validation_success_iff_all (env : Env) (w : World) (s : ValidationSummary)
    (h : validation_flow env w = Except.ok s) :
    (s.validation_success = true ↔ ∀ e ∈ s.connectivity_tests, e.status = "success")
    ∧ (s.connectivity_tests = [] → s.validation_success = true) := by
  unfold validation_flow at h
  rw [test_connectivity_eq] at h
  cases hr : check_resources w.res with
  | error e => rw [hr] at h; simp [bind, Except.bind] at h
  | ok r =>
    rw [hr] at h
    simp only [bind, Except.bind, pure, Except.pure, Except.ok.injEq] at h
    subst h
    constructor
    · simp [List.all_eq_true]
    · intro hempty
      simp only at hempty
      simp [hempty]

/-- Witness for C1: in the world `w0` with `env0` (metadata probe skipped,
internet probe succeeding) the flow returns a summary whose success flag
agrees with the all-success condition. -/
theorem validation_success_iff_all_witness :
    ∃ s, validation_flow env0 w0 = Except.ok s
      ∧ ((s.validation_success = true ↔ ∀ e ∈ s.connectivity_tests, e.status = "success")
          ∧ (s.connectivity_tests = [] → s.validation_success = true)) := by
  have hok : (validation_flow env0 w0).isOk = true := by decide
  cases hs : validation_flow env0 w0 with
  | error e => rw [hs] at hok; exact absurd hok (by simp [Except.isOk, Except.toBool])
  | ok s => exact ⟨s, rfl, validation_success_iff_all env0 w0 s hs⟩

/-- C4: if any of the three OS-level sampling calls (CPU, memory, disk)
raises, `check_resources` (which installs no handler) re-raises the same
exception, and `validation_flow` terminates with that exception instead of
returning a `ValidationSummary`. -/
theorem resource_sampling_error_propagates (env : Env) (w : World) (e : String)
    (h : w.res.cpu_percent = Except.error e
        ∨ ((∃ c, w.res.cpu_percent = Except.ok c) ∧ w.res.memory = Except.error e)
        ∨ ((∃ c, w.res.cpu_percent = Except.ok c) ∧ (∃ m, w.res.memory = Except.ok m)
            ∧ w.res.disk = Except.error e)) :
    check_resources w.res = Except.error e ∧ validation_flow env w = Except.error e := by
  have hc : check_resources w.res = Except.error e := by
    unfold check_resources
    rcases h with h1 | ⟨⟨c, hc⟩, h2⟩ | ⟨⟨c, hc⟩, ⟨m, hm⟩, h3⟩
    · simp [h1, bind, Except.bind]
    · simp [hc, h2, bind, Except.bind]
    · simp [hc, hm, h3, bind, Except.bind]
  refine ⟨hc, ?_⟩
  unfold validation_flow
  rw [test_connectivity_eq]
  simp [hc, bind, Except.bind]

/-- A world whose CPU sampling call raises. -/
def wCpuErr : World :=
  { w0 with res := { cpu_percent := Except.error "oserror"
                     memory := Except.ok ⟨2 ^ 31, 2 ^ 30, 50⟩
                     disk := Except.ok ⟨2 ^ 33, 2 ^ 32⟩ } }

/-- Witness for C4: a failing CPU sample aborts the whole flow. -/
theorem resource_sampling_error_propagates_witness :
    check_resources wCpuErr.res = Except.error "oserror"
    ∧ validation_flow env0 wCpuErr = Except.error "oserror" :=
  resource_sampling_error_propagates env0 wCpuErr "oserror" (Or.inl rfl)

/-- An environment where only the metadata endpoint variable is set. -/
def envMeta : Env :=
  fun k => if k = "ECS_CONTAINER_METADATA_URI_V4" then some "http://169.254.2.2/v4" else none

/-- An environment where the metadata endpoint variable is the empty string. -/
def envEmptyMeta : Env :=
  fun k => if k = "ECS_CONTAINER_METADATA_URI_V4" then some "" else none

theorem internetEntry_test (w : World) : (internetEntry w).test = "internet_connectivity" := by
  unfold internetEntry; cases w.internet <;> rfl

theorem truthy_none : truthy none = false := rfl

theorem truthy_empty : truthy (some "") = false := rfl

theorem truthy_some_ne (s : String) (h : s ≠ "") : truthy (some s) = true := by
  have hb : s.isEmpty = false := by
    cases hb : s.isEmpty
    · rfl
    · exact absurd ((String.isEmpty_iff s).mp hb) h
  simp [truthy, hb]

/-- C3: the prober never raises: for every behaviour of the two HTTP calls it
returns a result list, and an exception in a call is converted into an entry
with status "failed" whose error field is the exception's string
representation. -/
theorem test_connectivity_never_raises (env : Env) (w : World) :
    ∃ l, test_connectivity env w = Except.ok l
      ∧ (∀ msg, w.internet = Except.error msg →
          l.head? = some ⟨"internet_connectivity", "failed", none, some msg⟩)
      ∧ (∀ msg, truthy (env "ECS_CONTAINER_METADATA_URI_V4") = true →
          w.metadata = Except.error msg →
          l.get? 1 = some ⟨"ecs_metadata", "failed", none, some msg⟩) := by
  refine ⟨_, test_connectivity_eq env w, fun msg hmsg => ?_, fun msg hg hmsg => ?_⟩
  · simp [internetEntry, hmsg]
  · simp [metaEntries, hg, metaEntry, hmsg, bind, Except.bind]

/-- A world where both HTTP calls raise. -/
def wBothFail : World :=
  { w0 with internet := Except.error "timed out", metadata := Except.error "urlopen error" }

/-- Witness for C3: with the metadata variable set and both calls raising,
the prober still returns, with both entries failed and carrying the
exception strings. -/
theorem test_connectivity_never_raises_witness :
    ∃ l, test_connectivity envMeta wBothFail = Except.ok l
      ∧ l.head? = some ⟨"internet_connectivity", "failed", none, some "timed out"⟩
      ∧ l.get? 1 = some ⟨"ecs_metadata", "failed", none, some "urlopen error"⟩ := by
  obtain ⟨l, h1, h2, h3⟩ := test_connectivity_never_raises envMeta wBothFail
  exact ⟨l, h1, h2 "timed out" rfl, h3 "urlopen error" (by decide) rfl⟩

/-- Counterexample to C2 as stated. Part 1: with
`ECS_CONTAINER_METADATA_URI_V4` set (to the empty string) the prober returns
one entry, not two. Part 2: with the variable set to a URL and the metadata
GET succeeding (no exception) with a JSON array body, the second entry is
nevertheless "failed", so "failed exactly when the GET raises" is false. -/
theorem metadata_probe_entry_count_counterexample :
    ((test_connectivity envEmptyMeta w0).toOption.map List.length = some 1)
    ∧ ((test_connectivity envMeta { w0 with metadata := Except.ok (Json.arr []) }).toOption.map
          (fun l => l.map (fun t => (t.test, t.status)))
        = some [("internet_connectivity", "success"), ("ecs_metadata", "failed")]) := by
  constructor <;> rfl

/-- C2 as amended: the prober returns exactly one entry when the metadata
variable is unset or set to the empty string, and exactly two entries when it
is set to a non-empty string, the second being "failed" exactly when the
metadata GET raises an exception or returns a body that is not a JSON object
(field extraction then raises inside the same try block). -/
theorem metadata_probe_entry_count (env : Env) (w : World)
    (l : List ConnectivityResult) (h : test_connectivity env w = Except.ok l) :
    ((env "ECS_CONTAINER_METADATA_URI_V4" = none
        ∨ env "ECS_CONTAINER_METADATA_URI_V4" = some "") → l.length = 1)
    ∧ (∀ s, env "ECS_CONTAINER_METADATA_URI_V4" = some s → s ≠ "" →
        l.length = 2
        ∧ ∀ e2, l.get? 1 = some e2 →
            (e2.status = "failed" ↔ ¬ ∃ fields, w.metadata = Except.ok (Json.obj fields))) := by
  rw [test_connectivity_eq] at h
  injection h with h
  subst h
  constructor
  · rintro (hu | hu) <;> simp [metaEntries, hu, truthy_none, truthy_empty]
  · intro s hs hne
    have hg : truthy (env "ECS_CONTAINER_METADATA_URI_V4") = true := by
      rw [hs]; exact truthy_some_ne s hne
    refine ⟨by simp [metaEntries, hg], fun e2 he2 => ?_⟩
    have he2' : e2 = metaEntry w := by
      simp [metaEntries, hg] at he2; exact he2.symm
    subst he2'
    unfold metaEntry
    cases hm : w.metadata with
    | error e => simp [hm, bind, Except.bind]
    | ok j =>
      cases j <;>
        simp [hm, bind, Except.bind, pure, Except.pure, metaPayload, dictGet]

/-- Witness for the amended C2: with the variable set to a URL and the
metadata GET raising, the prober returns two entries with the second
failed. -/
theorem metadata_probe_entry_count_witness :
    ∃ l, test_connectivity envMeta w0 = Except.ok l ∧ l.length = 2
      ∧ ∃ e2, l.get? 1 = some e2 ∧ e2.status = "failed" := by
  obtain ⟨hlen, hsec⟩ :=
    (metadata_probe_entry_count envMeta w0 _ (test_connectivity_eq envMeta w0)).2
      "http://169.254.2.2/v4" rfl (by decide)
  refine ⟨_, test_connectivity_eq envMeta w0, hlen, metaEntry w0, rfl, ?_⟩
  refine (hsec (metaEntry w0) rfl).mpr ?_
  rintro ⟨fields, hf⟩
  exact absurd hf (by simp [w0])

/-- C9: when the metadata variable is set to the empty string the guard
(Python truthiness) skips the metadata probe exactly as when the variable is
absent, and the result is the single internet-probe entry. -/
theorem empty_metadata_var_skips_probe (env : Env) (w : World)
    (h : env "ECS_CONTAINER_METADATA_URI_V4" = some "") :
    test_connectivity env w
      = test_connectivity
          (fun k => if k = "ECS_CONTAINER_METADATA_URI_V4" then none else env k) w
    ∧ ∃ e, test_connectivity env w = Except.ok [e] ∧ e.test = "internet_connectivity" := by
  rw [test_connectivity_eq, test_connectivity_eq]
  refine ⟨?_, internetEntry w, ?_, internetEntry_test w⟩ <;>
    simp [metaEntries, h, truthy_none, truthy_empty]

/-- Witness for C9 at the concrete environment `envEmptyMeta`. -/
theorem empty_metadata_var_skips_probe_witness :
    test_connectivity envEmptyMeta w0
      = test_connectivity
          (fun k => if k = "ECS_CONTAINER_METADATA_URI_V4" then none else envEmptyMeta k) w0
    ∧ ∃ e, test_connectivity envEmptyMeta w0 = Except.ok [e]
        ∧ e.test = "internet_connectivity" :=
  empty_metadata_var_skips_probe envEmptyMeta w0 rfl

/-- C7: with the metadata variable set (non-empty) and the metadata GET
returning `{"TaskARN":"a","Cluster":"c","Family":"f"}`, the second entry is a
success whose payload is exactly
`{"task_arn":"a","cluster":"c","family":"f"}`. -/
theorem metadata_success_payload (env : Env) (w : World) (u : String)
    (hu : env "ECS_CONTAINER_METADATA_URI_V4" = some u) (hne : u ≠ "")
    (hm : w.metadata = Except.ok (Json.obj
      [("TaskARN", Json.str "a"), ("Cluster", Json.str "c"), ("Family", Json.str "f")])) :
    ∃ l, test_connectivity env w = Except.ok l
      ∧ l.get? 1 = some ⟨"ecs_metadata", "success",
          some (Json.obj [("task_arn", Json.str "a"), ("cluster", Json.str "c"),
            ("family", Json.str "f")]), none⟩ := by
  have hg : truthy (env "ECS_CONTAINER_METADATA_URI_V4") = true := by
    rw [hu]; exact truthy_some_ne u hne
  have hme : metaEntry w = ⟨"ecs_metadata", "success",
      some (Json.obj [("task_arn", Json.str "a"), ("cluster", Json.str "c"),
        ("family", Json.str "f")]), none⟩ := by
    unfold metaEntry; rw [hm]; rfl
  refine ⟨_, test_connectivity_eq env w, ?_⟩
  simp [metaEntries, hg, hme]

/-- A world whose metadata GET succeeds with the three expected fields. -/
def wMetaGood : World :=
  { w0 with metadata := Except.ok (Json.obj
      [("TaskARN", Json.str "a"), ("Cluster", Json.str "c"), ("Family", Json.str "f")]) }

/-- Witness for C7 at `envMeta` and `wMetaGood`. -/
theorem metadata_success_payload_witness :
    ∃ l, test_connectivity envMeta wMetaGood = Except.ok l
      ∧ l.get? 1 = some ⟨"ecs_metadata", "success",
          some (Json.obj [("task_arn", Json.str "a"), ("cluster", Json.str "c"),
            ("family", Json.str "f")]), none⟩ :=
  metadata_success_payload envMeta wMetaGood "http://169.254.2.2/v4" rfl (by decide) rfl

/-- C10: with the metadata variable set (non-empty) and the GET returning any
JSON object, the second entry is still a success, its payload holding
`Json.null` for each of TaskARN/Cluster/Family that is missing (Python's
`dict.get` returns `None` for a missing key, which serialises as null). -/
theorem metadata_missing_keys_null (env : Env) (w : World) (u : String)
    (fields : List (String × Json))
    (hu : env "ECS_CONTAINER_METADATA_URI_V4" = some u) (hne : u ≠ "")
    (hm : w.metadata = Except.ok (Json.obj fields)) :
    ∃ l, test_connectivity env w = Except.ok l
      ∧ l.get? 1 = some ⟨"ecs_metadata", "success",
          some (Json.obj [("task_arn", (fields.lookup "TaskARN").getD Json.null),
            ("cluster", (fields.lookup "Cluster").getD Json.null),
            ("family", (fields.lookup "Family").getD Json.null)]), none⟩ := by
  have hg : truthy (env "ECS_CONTAINER_METADATA_URI_V4") = true := by
    rw [hu]; exact truthy_some_ne u hne
  have hme : metaEntry w = ⟨"ecs_metadata", "success",
      some (Json.obj [("task_arn", (fields.lookup "TaskARN").getD Json.null),
        ("cluster", (fields.lookup "Cluster").getD Json.null),
        ("family", (fields.lookup "Family").getD Json.null)]), none⟩ := by
    unfold metaEntry; rw [hm]; rfl
  refine ⟨_, test_connectivity_eq env w, ?_⟩
  simp [metaEntries, hg, hme]

/-- A world whose metadata GET succeeds with an empty JSON object. -/
def wMetaEmptyObj : World := { w0 with metadata := Except.ok (Json.obj []) }

/-! ### Arithmetic facts about the rounding used in `check_resources` -/

theorem floor_le_roundHalfEven (q : ℚ) : ⌊q⌋ ≤ roundHalfEven q := by
  unfold roundHalfEven; split_ifs <;> omega

theorem roundHalfEven_le_floor_add_one (q : ℚ) : roundHalfEven q ≤ ⌊q⌋ + 1 := by
  unfold roundHalfEven; split_ifs <;> omega

theorem roundHalfEven_mono {q r : ℚ} (h : q ≤ r) :
    roundHalfEven q ≤ roundHalfEven r := by
  rcases lt_or_eq_of_le (Int.floor_le_floor h) with hf | hf
  · calc roundHalfEven q ≤ ⌊q⌋ + 1 := roundHalfEven_le_floor_add_one q
      _ ≤ ⌊r⌋ := by omega
      _ ≤ roundHalfEven r := floor_le_roundHalfEven r
  · unfold roundHalfEven
    rw [hf]
    split_ifs <;> first | omega | linarith

theorem roundHalfEven_le_int {q : ℚ} {n : ℤ} (h : q ≤ n) : roundHalfEven q ≤ n := by
  have hfn : ⌊q⌋ ≤ n := by
    have := Int.floor_le_floor h
    rwa [Int.floor_intCast] at this
  unfold roundHalfEven
  split_ifs with h1 h2 h3 <;> try omega
  all_goals
    have hlt : (⌊q⌋ : ℚ) < q := by linarith
    have hqn : ⌊q⌋ < n := by
      by_contra hc
      push_neg at hc
      have heq : ⌊q⌋ = n := le_antisymm hfn hc
      rw [heq] at hlt
      exact absurd (lt_of_lt_of_le hlt h) (lt_irrefl _)
    omega

theorem int_le_roundHalfEven {q : ℚ} {n : ℤ} (h : (n : ℚ) ≤ q) : n ≤ roundHalfEven q := by
  have hfn : n ≤ ⌊q⌋ := Int.le_floor.mpr h
  calc n ≤ ⌊q⌋ := hfn
    _ ≤ roundHalfEven q := floor_le_roundHalfEven q

theorem round2_mono {q r : ℚ} (h : q ≤ r) : round2 q ≤ round2 r := by
  unfold round2
  have h100 : q * 100 ≤ r * 100 := by linarith
  have := roundHalfEven_mono h100
  have hc : (roundHalfEven (q * 100) : ℚ) ≤ (roundHalfEven (r * 100) : ℚ) := by
    exact_mod_cast this
  linarith

theorem round2_nonneg {q : ℚ} (h : 0 ≤ q) : 0 ≤ round2 q := by
  unfold round2
  have : (0 : ℤ) ≤ roundHalfEven (q * 100) := int_le_roundHalfEven (by push_cast; linarith)
  have hc : (0 : ℚ) ≤ (roundHalfEven (q * 100) : ℚ) := by exact_mod_cast this
  linarith

theorem round2_le_hundred {q : ℚ} (h : q ≤ 100) : round2 q ≤ 100 := by
  unfold round2
  have : roundHalfEven (q * 100) ≤ (10000 : ℤ) := roundHalfEven_le_int (by push_cast; linarith)
  have hc : (roundHalfEven (q * 100) : ℚ) ≤ (10000 : ℚ) := by exact_mod_cast this
  linarith

/-- Inversion of a successful `check_resources` run: all three samples were
ok, the disk total was non-zero (else Python's `/` raises
`ZeroDivisionError`), and the record is exactly the one the source builds. -/
theorem check_resources_ok_inv (s : ResourceSample) (r : ResourceUsage)
    (h : check_resources s = Except.ok r) :
    ∃ c m d, s.cpu_percent = Except.ok c ∧ s.memory = Except.ok m
      ∧ s.disk = Except.ok d ∧ d.total ≠ 0
      ∧ r = { cpu_percent := c
              memory_total_gb := round2 ((m.total : ℚ) / 1024 ^ 3)
              memory_used_gb := round2 ((m.used : ℚ) / 1024 ^ 3)
              memory_percent := m.percent
              disk_total_gb := round2 ((d.total : ℚ) / 1024 ^ 3)
              disk_used_gb := round2 ((d.used : ℚ) / 1024 ^ 3)
              disk_percent := round2 ((d.used : ℚ) / (d.total : ℚ) * 100) } := by
  unfold check_resources pyDiv at h
  cases hc : s.cpu_percent with
  | error e => rw [hc] at h; simp [bind, Except.bind] at h
  | ok c =>
  cases hm : s.memory with
  | error e => rw [hc, hm] at h; simp [bind, Except.bind] at h
  | ok m =>
  cases hd : s.disk with
  | error e => rw [hc, hm, hd] at h; simp [bind, Except.bind] at h
  | ok d =>
    rw [hc, hm, hd] at h
    simp only [bind, Except.bind] at h
    split_ifs at h with hz
    exact ⟨c, m, d, rfl, rfl, rfl,
      fun h0 => hz (by rw [h0]; norm_num), (Except.ok.inj h).symm⟩

/-- `q` has at most three significant decimal digits: it is an integer of
magnitude at most 999 scaled by a (positive or negative) power of ten. Any
result of rounding to 3 significant figures satisfies this, whatever the tie
rule. -/
def hasThreeSigFigs (q : ℚ) : Prop :=
  ∃ m : ℤ, ∃ j : ℕ, (q = (m : ℚ) * 10 ^ j ∨ q * 10 ^ j = (m : ℚ)) ∧ m.natAbs ≤ 999

theorem round2_eq_of_mul_100_int (q : ℚ) (n : ℤ) (h : q * 100 = (n : ℚ)) :
    round2 q = (n : ℚ) / 100 := by
  unfold round2 roundHalfEven
  rw [h, Int.floor_intCast]
  simp

/-- Forward evaluation of `check_resources` on successful samples. -/
theorem check_resources_eq (s : ResourceSample) (c : ℚ) (m : MemSample) (d : DiskSample)
    (hc : s.cpu_percent = Except.ok c) (hm : s.memory = Except.ok m)
    (hd : s.disk = Except.ok d) (hdt : d.total ≠ 0) :
    check_resources s = Except.ok
      { cpu_percent := c
        memory_total_gb := round2 ((m.total : ℚ) / 1024 ^ 3)
        memory_used_gb := round2 ((m.used : ℚ) / 1024 ^ 3)
        memory_percent := m.percent
        disk_total_gb := round2 ((d.total : ℚ) / 1024 ^ 3)
        disk_used_gb := round2 ((d.used : ℚ) / 1024 ^ 3)
        disk_percent := round2 ((d.used : ℚ) / (d.total : ℚ) * 100) } := by
  unfold check_resources pyDiv
  rw [hc, hm, hd]
  have hz : ¬ ((d.total : ℚ) = 0) := by
    simpa [Nat.cast_eq_zero] using hdt
  simp only [bind, Except.bind, if_neg hz]
  rfl

/-- A sample whose memory total is 13.25 GB (53 · 2^28 bytes) exactly. -/
def sampleC6 : ResourceSample where
  cpu_percent := Except.ok 5
  memory := Except.ok ⟨53 * 2 ^ 28, 2 ^ 30, 50⟩
  disk := Except.ok ⟨2 ^ 33, 2 ^ 32⟩

/-- Counterexample to C6 as stated: on a memory total of 53·2^28 bytes
(13.25 GB exactly) the code stores `round(13.25, 2) = 13.25`, a value with
four significant digits, so the field is not the byte counter divided by
1024³ and rounded to 3 significant figures (any such rounding yields a
number with at most three significant digits, e.g. 13.2 or 13.3). -/
theorem gb_fields_rounding_counterexample :
    (check_resources sampleC6).toOption.map ResourceUsage.memory_total_gb = some (53 / 4)
    ∧ ¬ hasThreeSigFigs (53 / 4) := by
  constructor
  · rw [check_resources_eq sampleC6 5 ⟨53 * 2 ^ 28, 2 ^ 30, 50⟩ ⟨2 ^ 33, 2 ^ 32⟩
      rfl rfl rfl (by norm_num)]
    simp only [Except.toOption, Option.map_some]
    have harg : ((53 * 2 ^ 28 : ℕ) : ℚ) / 1024 ^ 3 * 100 = ((1325 : ℤ) : ℚ) := by
      norm_num
    rw [round2_eq_of_mul_100_int _ 1325 harg]
    norm_num
  · rintro ⟨m, j, hq | hq, hb⟩
    · have h2 : ((53 : ℤ) : ℚ) = ((4 * m * 10 ^ j : ℤ) : ℚ) := by
        push_cast
        field_simp at hq
        linarith
      have h3 : (53 : ℤ) = 4 * m * 10 ^ j := Int.cast_injective h2
      have : (2 : ℤ) ∣ 53 := ⟨2 * m * 10 ^ j, by rw [h3]; ring⟩
      norm_num at this
    · have h2 : ((53 * 10 ^ j : ℤ) : ℚ) = ((4 * m : ℤ) : ℚ) := by
        push_cast
        field_simp at hq
        linarith
      have h3 : (53 : ℤ) * 10 ^ j = 4 * m := by exact_mod_cast h2
      match j with
      | 0 => omega
      | 1 => norm_num at h3; omega
      | (k + 2) =>
        have hp : (10 : ℤ) ^ (k + 2) = 100 * 10 ^ k := by ring
        rw [hp] at h3
        have ht : (1 : ℤ) ≤ 10 ^ k := one_le_pow₀ (by norm_num)
        have hm1 : m = 1325 * 10 ^ k := by linarith
        have : (1325 : ℤ) ≤ m := by
          rw [hm1]; nlinarith
        omega

/-- C6 as amended: every gigabyte field of the `ResourceUsage` record is the
raw byte counter divided by 1024³ and rounded to 2 decimal places
(round-half-to-even), exactly as `round(bytes / (1024**3), 2)` computes. -/
theorem gb_fields_round2 (s : ResourceSample) (r : ResourceUsage)
    (h : check_resources s = Except.ok r) :
    ∃ m d, s.memory = Except.ok m ∧ s.disk = Except.ok d
      ∧ r.memory_total_gb = round2 ((m.total : ℚ) / 1024 ^ 3)
      ∧ r.memory_used_gb = round2 ((m.used : ℚ) / 1024 ^ 3)
      ∧ r.disk_total_gb = round2 ((d.total : ℚ) / 1024 ^ 3)
      ∧ r.disk_used_gb = round2 ((d.used : ℚ) / 1024 ^ 3) := by
  obtain ⟨c, m, d, hc, hm, hd, hdt, hr⟩ := check_resources_ok_inv s r h
  exact ⟨m, d, hm, hd, by rw [hr], by rw [hr], by rw [hr], by rw [hr]⟩

/-- Witness for the amended C6 at the concrete sample of `w0`. -/
theorem gb_fields_round2_witness :
    ∃ r, check_resources w0.res = Except.ok r
      ∧ ∃ m d, w0.res.memory = Except.ok m ∧ w0.res.disk = Except.ok d
        ∧ r.memory_total_gb = round2 ((m.total : ℚ) / 1024 ^ 3)
        ∧ r.memory_used_gb = round2 ((m.used : ℚ) / 1024 ^ 3)
        ∧ r.disk_total_gb = round2 ((d.total : ℚ) / 1024 ^ 3)
        ∧ r.disk_used_gb = round2 ((d.used : ℚ) / 1024 ^ 3) := by
  have hok : (check_resources w0.res).isOk = true := by decide
  cases hs : check_resources w0.res with
  | error e => rw [hs] at hok; exact absurd hok (by simp [Except.isOk, Except.toBool])
  | ok r => exact ⟨r, rfl, gb_fields_round2 w0.res r hs⟩

/-- A sample whose psutil-reported memory percent is 150 although
`used ≤ total` holds for both memory and disk. -/
def sampleC8 : ResourceSample where
  cpu_percent := Except.ok 5
  memory := Except.ok ⟨2 ^ 31, 2 ^ 30, 150⟩
  disk := Except.ok ⟨2 ^ 33, 2 ^ 32⟩

/-- Counterexample to C8 as stated: the code copies psutil's
`memory.percent` verbatim, so a sample with `used ≤ total` for memory and
disk can still produce `memory_percent = 150 > 100`. -/
theorem resource_percent_bounds_counterexample :
    sampleC8.memory = Except.ok ⟨2 ^ 31, 2 ^ 30, 150⟩ ∧ (2 : ℕ) ^ 30 ≤ 2 ^ 31
    ∧ sampleC8.disk = Except.ok ⟨2 ^ 33, 2 ^ 32⟩ ∧ (2 : ℕ) ^ 32 ≤ 2 ^ 33
    ∧ (check_resources sampleC8).toOption.map ResourceUsage.memory_percent = some 150
    ∧ ¬ ((150 : ℚ) ≤ 100) :=
  ⟨rfl, by norm_num, rfl, by norm_num, rfl, by norm_num⟩

/-- C8 as amended: for every successful run whose raw counters satisfy
`used ≤ total` (memory and disk) and whose psutil-reported memory percent
lies in [0, 100] (the code copies that field verbatim, so a bound on it must
be assumed of the OS sample), the record satisfies the claimed bounds:
both percentages in [0, 100] and `used_gb ≤ total_gb` for memory and disk. -/
theorem resource_percent_bounds (s : ResourceSample) (r : ResourceUsage)
    (m : MemSample) (d : DiskSample)
    (h : check_resources s = Except.ok r)
    (hm : s.memory = Except.ok m) (hd : s.disk = Except.ok d)
    (hmu : m.used ≤ m.total) (hdu : d.used ≤ d.total)
    (hp0 : 0 ≤ m.percent) (hp1 : m.percent ≤ 100) :
    (0 ≤ r.memory_percent ∧ r.memory_percent ≤ 100)
    ∧ (0 ≤ r.disk_percent ∧ r.disk_percent ≤ 100)
    ∧ r.memory_used_gb ≤ r.memory_total_gb
    ∧ r.disk_used_gb ≤ r.disk_total_gb := by
  obtain ⟨c, m', d', hc', hm', hd', hdt, hr⟩ := check_resources_ok_inv s r h
  rw [hm] at hm'
  rw [hd] at hd'
  injection hm' with hme
  injection hd' with hde
  subst hme hde hr
  have htpos : (0 : ℚ) < (d.total : ℚ) := by
    have : 0 < d.total := Nat.pos_of_ne_zero hdt
    exact_mod_cast this
  have hratio : (d.used : ℚ) / (d.total : ℚ) * 100 ≤ 100 := by
    have h1 : (d.used : ℚ) / (d.total : ℚ) ≤ 1 := by
      rw [div_le_one htpos]
      exact_mod_cast hdu
    linarith
  have hratio0 : (0 : ℚ) ≤ (d.used : ℚ) / (d.total : ℚ) * 100 := by positivity
  refine ⟨⟨hp0, hp1⟩, ⟨round2_nonneg hratio0, round2_le_hundred hratio⟩, ?_, ?_⟩
  · exact round2_mono (by gcongr)
  · exact round2_mono (by gcongr)

/-- Witness for the amended C8 at the concrete sample of `w0`
(memory 1 GB of 2 GB at 50 %, disk 4 GB of 8 GB). -/
theorem resource_percent_bounds_witness :
    ∃ r, check_resources w0.res = Except.ok r
      ∧ ((0 ≤ r.memory_percent ∧ r.memory_percent ≤ 100)
        ∧ (0 ≤ r.disk_percent ∧ r.disk_percent ≤ 100)
        ∧ r.memory_used_gb ≤ r.memory_total_gb
        ∧ r.disk_used_gb ≤ r.disk_total_gb) := by
  have hok : (check_resources w0.res).isOk = true := by decide
  cases hs : check_resources w0.res with
  | error e => rw [hs] at hok; exact absurd hok (by simp [Except.isOk, Except.toBool])
  | ok r =>
    exact ⟨r, rfl, resource_percent_bounds w0.res r ⟨2 ^ 31, 2 ^ 30, 50⟩ ⟨2 ^ 33, 2 ^ 32⟩
      hs rfl rfl (by norm_num) (by norm_num) (by norm_num) (by norm_num)⟩

/-- Witness for C10: an empty metadata object still yields a success entry,
with null for all three payload keys. -/
theorem metadata_missing_keys_null_witness :
    ∃ l, test_connectivity envMeta wMetaEmptyObj = Except.ok l
      ∧ l.get? 1 = some ⟨"ecs_metadata", "success",
          some (Json.obj [("task_arn", Json.null), ("cluster", Json.null),
            ("family", Json.null)]), none⟩ :=
  metadata_missing_keys_null envMeta wMetaEmptyObj "http://169.254.2.2/v4" []
    rfl (by decide) rfl

